import Mathlib

/-! Verification of the FROGS mirror engine (`src/frogs.py`, `src/util.py`).

We give a shallow embedding of the engine's decision logic (`doFile`,
`check_mdt`, `check_md5sum`), of the filesystem and summary-list effects of
`downloadFile`, of the dual working-directory cursors moved by
`doDirectory` and the loop in `main`, of the login logic of
`FTPGetter.__init__`, and of `get_credentials`, and we prove or refute the
specification's claims about them.  Transport calls (`ftplib`) are
modelled by their observable data: the chunks a transfer delivers, or the
failure interrupting it. -/

namespace Frogs

/-- A file's byte content, modelled as a list of byte values. -/
abbrev Content := List Nat

/-- The local filesystem seen by the engine: a map from file name to
content (`none` means the file is absent).  Only the flat set of names the
engine touches in its current working directory matters. -/
structure FS where
  files : String → Option Content

/-- `os.path.exists filename`. -/
def FS.existsFile (fs : FS) (name : String) : Bool :=
  (fs.files name).isSome

/-- `open(name, "wb")` followed by writing `c`: create or truncate `name`,
leaving it holding exactly the bytes written. -/
def FS.write (fs : FS) (name : String) (c : Content) : FS :=
  ⟨fun n => if n = name then some c else fs.files n⟩

/-- `os.rename src dst`: `dst` takes over `src`'s content and `src`
disappears. -/
def FS.rename (fs : FS) (src dst : String) : FS :=
  ⟨fun n =>
    if n = dst then fs.files src
    else if n = src then none
    else fs.files n⟩

/-- The engine's per-run summary lists: `updatedFiles`, `newFiles`,
`errorFiles` of `FTPGetter`. -/
structure MirrorState where
  updatedFiles : List String
  newFiles : List String
  errorFiles : List String
deriving DecidableEq

/-- Outcome of one `ftp.retrbinary` streaming transfer into a local file:
either the complete content arrives, or an exception interrupts the
transfer after a prefix of the bytes was already written to the open
file. -/
inductive Fetch where
  | ok (content : Content)
  | err (written : Content)
deriving DecidableEq

/-- The name `downloadFile` opens for writing: `filename + ".1"` for an
update, `filename` itself otherwise (util.py:221-224). -/
def downloadTarget (filename : String) (isUpdate : Bool) : String :=
  if isUpdate then filename ++ ".1" else filename

/-- Result of `downloadFile`: the filesystem, the summary lists, and the
boolean the function returns to its caller. -/
structure DlRes where
  fs : FS
  st : MirrorState
  result : Bool

/-- Shallow embedding of `FTPGetter.downloadFile` (util.py:215-239).

`open(target, "wb")` truncates `target` and the delivered bytes are
streamed into it.  On an exception the inner handler appends a message to
`errorFiles` and executes `return False`; the `finally` block then closes
the file, renames `filename + ".1"` over `filename` whenever `isUpdate`
(even after a failure, since the block runs unconditionally), and its own
`return True` replaces the pending `return False`, so the caller is told
success on every path. -/
def downloadFile (fs : FS) (st : MirrorState) (filename : String)
    (isUpdate : Bool) (fetch : Fetch) : DlRes :=
  let target := downloadTarget filename isUpdate
  match fetch with
  | .ok content =>
      let fs1 := fs.write target content
      let fs2 := if isUpdate then fs1.rename target filename else fs1
      ⟨fs2, st, true⟩
  | .err written =>
      let fs1 := fs.write target written
      let st1 := { st with
        errorFiles := st.errorFiles ++ [filename ++ " could not be downloaded:"] }
      let fs2 := if isUpdate then fs1.rename target filename else fs1
      ⟨fs2, st1, true⟩

/-- A `datetime.datetime` as compared by `check_mdt`, truncated to whole
seconds just as `strptime(result[4:], "%Y%m%d%H%M%S")[0:6]` produces for
the remote side. -/
structure Datetime where
  year : Nat
  month : Nat
  day : Nat
  hour : Nat
  minute : Nat
  second : Nat
deriving DecidableEq

/-- Python `datetime` order: lexicographic on the fields, most significant
first. -/
def Datetime.ltb (a b : Datetime) : Bool :=
  if a.year ≠ b.year then decide (a.year < b.year)
  else if a.month ≠ b.month then decide (a.month < b.month)
  else if a.day ≠ b.day then decide (a.day < b.day)
  else if a.hour ≠ b.hour then decide (a.hour < b.hour)
  else if a.minute ≠ b.minute then decide (a.minute < b.minute)
  else decide (a.second < b.second)

/-- Shallow embedding of `FTPGetter.check_mdt` (util.py:199-212): parse the
`MDTM` reply into the remote modification time, take the local file's
modification time, and return `localModTime < remoteLastModDate`. -/
def check_mdt (localMtime remoteMtime : Datetime) : Bool :=
  Datetime.ltb localMtime remoteMtime

/-- Shallow embedding of `FTPGetter.check_md5sum` (util.py:182-196), the
digest function kept abstract.  `retrbinary('RETR ...', m.update)` feeds
every chunk of the full remote content into the rolling hash; the rolling
state of a hash object is the concatenation of the bytes fed so far, and
`hexdigest` applies the digest to that state.  Returns the comparison
`local_md5 != ftp_md5` together with the number of remote bytes
transferred to make the decision. -/
def check_md5sum (md5 : Content → Nat) (remoteChunks : List Content)
    (localContent : Content) : Bool × Nat :=
  let fed := remoteChunks.foldl (fun acc chunk => acc ++ chunk) []
  let ftp_md5 := md5 fed
  let local_md5 := md5 localContent
  (local_md5 != ftp_md5, fed.length)

/-- One download call made by the engine: the file it concerns, the name
opened for writing, and the `isUpdate` flag passed to `downloadFile`. -/
structure DlAttempt where
  name : String
  target : String
  isUpdate : Bool
deriving DecidableEq

/-- Result of `doFile`: the filesystem, the summary lists, the download
attempts made, and the number of remote bytes fetched by the pre-download
check alone. -/
structure DoFileRes where
  fs : FS
  st : MirrorState
  attempts : List DlAttempt
  checkFetched : Nat

/-- Shallow embedding of `FTPGetter.doFile` (util.py:157-179).

If the file exists locally, the configured check (`md5sum`, `mdate`, or
anything else meaning no check) computes `update`; when `update` stays
false, the function returns at once with nothing changed.  Otherwise
(update needed, or file absent, in which case `update` keeps its initial
`False`), it calls `downloadFile filename update` and, when the returned
result is `True`, appends `os.path.abspath(filename)` — that is,
`cwd/filename` — to `updatedFiles` or `newFiles` according to `update`. -/
def doFile (md5 : Content → Nat) (check : String) (cwd : String)
    (fs : FS) (st : MirrorState) (filename : String)
    (mtimeOf : String → Datetime) (remoteMtime : Datetime)
    (remoteChunks : List Content) (fetch : Fetch) : DoFileRes :=
  match fs.files filename with
  | some localContent =>
      let checkRes : Bool × Nat :=
        if check = "md5sum" then check_md5sum md5 remoteChunks localContent
        else if check = "mdate" then (check_mdt (mtimeOf filename) remoteMtime, 0)
        else (false, 0)
      if checkRes.1 then
        let dl := downloadFile fs st filename true fetch
        let st1 :=
          if dl.result then
            { dl.st with updatedFiles := dl.st.updatedFiles ++ [cwd ++ "/" ++ filename] }
          else dl.st
        ⟨dl.fs, st1, [⟨filename, downloadTarget filename true, true⟩], checkRes.2⟩
      else ⟨fs, st, [], checkRes.2⟩
  | none =>
      let dl := downloadFile fs st filename false fetch
      let st1 :=
        if dl.result then
          { dl.st with newFiles := dl.st.newFiles ++ [cwd ++ "/" ++ filename] }
        else dl.st
      ⟨dl.fs, st1, [⟨filename, downloadTarget filename false, false⟩], 0⟩

/-- The pair of working-directory cursors — the local one moved by
`os.chdir` and the remote one moved by `ftp.cwd` — each a stack of
directory names below the dataset directory the loop in `main` starts
from. -/
structure Cursors where
  localPath : List String
  remotePath : List String
deriving DecidableEq

/-- `line[0]`, or `none` for the empty string, where Python raises
`IndexError`. -/
def firstChar (s : String) : Option Char :=
  s.data.head?

/-- The characters after the last space of the list, or `none` when there
is no space. -/
def afterLastSpaceChars : List Char → Option (List Char)
  | [] => none
  | c :: cs =>
      match afterLastSpaceChars cs with
      | some r => some r
      | none => if c = ' ' then some cs else none

/-- `dirLine[(dirLine.rindex(" ") + 1):]`: the text after the last space of
the line; `none` when the line has no space, where `rindex` raises
`ValueError` — uncaught in `doDirectory`. -/
def afterLastSpace (s : String) : Option String :=
  (afterLastSpaceChars s.data).map (fun cs => String.mk cs)

/-- Cursor effect of `FTPGetter.doDirectory` (util.py:123-139): for a line
whose first character is `d`, extract the name after the last space, then
`os.mkdir`/`os.chdir(dirName)` when `makedir`, then `ftp.cwd(dirName)`;
any other line leaves both cursors alone and yields an empty listing.
`none` models an uncaught exception: an empty line, or a `d` line with no
space.  The `retrlines("LIST", ...)` call moves no cursor and is omitted
here. -/
def doDirectory (cur : Cursors) (dirLine : String) (makedir : Bool) :
    Option Cursors :=
  match firstChar dirLine with
  | none => none
  | some c =>
      if c = 'd' then
        match afterLastSpace dirLine with
        | none => none
        | some dirName =>
            some { localPath := if makedir then cur.localPath ++ [dirName]
                                else cur.localPath,
                   remotePath := cur.remotePath ++ [dirName] }
      else some cur

/-- `ftp.cwd("../")` or `os.chdir("../")`: drop the last path segment. -/
def popDir (p : List String) : List String :=
  p.dropLast

/-- One iteration of the loop over the top-level listing in `main`
(frogs.py:83-89), viewed on the two cursors: `doDirectory ds True`, the
per-file handling (`handleFile`/`doFile` move no cursor), then
`ftp.cwd("../")` and `os.chdir("../")` run unconditionally. -/
def processEntry (cur : Cursors) (ds : String) : Option Cursors :=
  match doDirectory cur ds true with
  | none => none
  | some cur1 => some ⟨popDir cur1.localPath, popDir cur1.remotePath⟩

/-- A Python value occurring in the credentials tuple returned by
`get_credentials`. -/
inductive PyVal where
  | str (s : String)
  | bool (b : Bool)
deriving DecidableEq

/-- The lines of a character stream, Python `readlines` style: every line
keeps its terminating newline, a final unterminated line is kept as is,
and an empty stream has no lines. -/
def readlinesChars : List Char → List (List Char)
  | [] => []
  | c :: cs =>
      if c = '\n' then ['\n'] :: readlinesChars cs
      else
        match readlinesChars cs with
        | [] => [[c]]
        | line :: rest => (c :: line) :: rest

/-- Python `f.readlines()` on a file holding `s`. -/
def readlines (s : String) : List String :=
  (readlinesChars s.data).map (fun cs => String.mk cs)

/-- Python `line.replace("\n", "")`: remove every newline character. -/
def stripNl (s : String) : String :=
  String.mk (s.data.filter (fun c => c != '\n'))

/-- Shallow embedding of `get_credentials` (util.py:268-287) as a function
of the credential file's content.  `lines[i]` beyond the end models as
`none` (`IndexError`).  In token mode the code reads `lines[0]` into
`utoken` but then builds the tuple `(token,)` from the boolean parameter
`token`, discarding the string it just read. -/
def get_credentials (fileContent : String) (token : Bool) :
    Option (List PyVal) :=
  let lines := readlines fileContent
  if token then
    match lines.get? 0 with
    | none => none
    | some _ => some [PyVal.bool token]
  else
    match lines.get? 0, lines.get? 1 with
    | some l0, some l1 => some [PyVal.str (stripNl l0), PyVal.str (stripNl l1)]
    | _, _ => none

/-- What `FTPGetter.__init__` does with the connection right after
`FTP(ftpHost)`. -/
inductive LoginAction where
  | anonymous
  | withCreds (user pwd : String)
  | raised (msg : String)
deriving DecidableEq

/-- Shallow embedding of the login logic of `FTPGetter.__init__`
(util.py:67-73): `if user:` is Python truthiness, so `None` and the empty
string both fall through to the anonymous `login()`; a truthy user with
`pwd is None` raises before any login attempt; otherwise
`login(user, pwd)`. -/
def ftpLogin : Option String → Option String → LoginAction
  | none, _ => .anonymous
  | some u, pwd =>
      if u = "" then .anonymous
      else
        match pwd with
        | none => .raised "Password needed to login as user"
        | some p => .withCreds u p

/-- The empty summary state a fresh `FTPGetter` starts with. -/
def st0 : MirrorState :=
  ⟨[], [], []⟩

/-- A sample filesystem holding one file `a.nc` with content `[1, 2, 3]`. -/
def fsA : FS :=
  ⟨fun n => if n = "a.nc" then some [1, 2, 3] else none⟩

/-- The empty filesystem. -/
def fsEmpty : FS :=
  ⟨fun _ => none⟩

/-- A sample timestamp, midnight 2022-01-01. -/
def t2022 : Datetime :=
  ⟨2022, 1, 1, 0, 0, 0⟩

/-- A sample timestamp, midnight 2022-02-01. -/
def t2022feb : Datetime :=
  ⟨2022, 2, 1, 0, 0, 0⟩

/-- Python `datetime` comparison is a strict order: no timestamp is
earlier than itself, so equal timestamps never trigger an update. -/
theorem datetime_ltb_irrefl (t : Datetime) : Datetime.ltb t t = false := by
  simp [Datetime.ltb]

/-- Folding append over the delivered chunks concatenates them: the rolling
hash is finally applied to the full remote content. -/
theorem foldl_append_eq_flatten (l : List Content) (acc : Content) :
    l.foldl (fun a b => a ++ b) acc = acc ++ l.flatten := by
  induction l generalizing acc with
  | nil => simp
  | cons x xs ih => simp [ih, List.append_assoc]

/-- Claim C1 is false on the code: with `isUpdate = true` and a transfer
that fails after delivering one byte, the `finally` block of
`downloadFile` still renames the partial temporary over the original, so
the original content `[1, 2, 3]` of `a.nc` is destroyed — `a.nc` now
holds the partial `[7]` — no temporary `a.nc.1` is left in place, the
failure is recorded in `errorFiles`, and the caller is nevertheless told
success. -/
theorem c1_failed_update_clobbers_original :
    (downloadFile fsA st0 "a.nc" true (.err [7])).fs.files "a.nc" = some [7]
    ∧ (downloadFile fsA st0 "a.nc" true (.err [7])).fs.files "a.nc.1" = none
    ∧ (downloadFile fsA st0 "a.nc" true (.err [7])).st.errorFiles
        = ["a.nc could not be downloaded:"]
    ∧ (downloadFile fsA st0 "a.nc" true (.err [7])).result = true := by
  decide

/-- Claim C2: `downloadFile` reports success (`True`) to its caller on
every call, whether or not the inner transfer raised, because the
`return True` sits in the unconditional cleanup block and overrides the
error path's `return False`. -/
theorem c2_downloadFile_always_reports_success (fs : FS) (st : MirrorState)
    (filename : String) (isUpdate : Bool) (fetch : Fetch) :
    (downloadFile fs st filename isUpdate fetch).result = true := by
  cases fetch <;> rfl

/-- Claim C3 is false on the code: for a file absent locally whose transfer
fails, `downloadFile` records the failure in `errorFiles` yet still
returns `True`, so `doFile` also records the file's absolute path in
`newFiles`: the failed file lands in two summary lists, not only in
`errorFiles`, and the outcome is not exclusive. -/
theorem c3_failed_download_recorded_twice :
    (doFile (fun c => c.length) "mdate" "/data" fsEmpty st0 "b.nc"
      (fun _ => t2022) t2022 [] (.err [])).st.newFiles = ["/data/b.nc"]
    ∧ (doFile (fun c => c.length) "mdate" "/data" fsEmpty st0 "b.nc"
      (fun _ => t2022) t2022 [] (.err [])).st.errorFiles
        = ["b.nc could not be downloaded:"] := by
  decide

/-- Claim C4 as stated is false on the code: a top-level listing entry that
is not a directory (here a plain-file line) makes `doDirectory` descend on
neither side, yet the loop in `main` still runs the unconditional paired
`cd ..`, so both cursors end one level above the dataset directory they
started in instead of back at it. -/
theorem c4_nondirectory_entry_breaks_cursor_return :
    processEntry ⟨["1DD_V1"], ["1DD_V1"]⟩ "-rw-r--r-- 1 u g 42 Jan 1 a.nc"
      = some ⟨[], []⟩
    ∧ processEntry ⟨["1DD_V1"], ["1DD_V1"]⟩ "-rw-r--r-- 1 u g 42 Jan 1 a.nc"
      ≠ some ⟨["1DD_V1"], ["1DD_V1"]⟩ := by
  decide

/-- Claim C4 (amended): for every *directory* entry of the top-level
listing — a line starting with `d` and containing a space, so that the
name extraction succeeds — the loop body of `main` moves both cursors down
together and the paired `cd ..` returns both to the dataset directory they
started in. -/
theorem c4_directory_entry_restores_cursors (cur : Cursors) (ds : String)
    (h : firstChar ds = some 'd') (hs : (afterLastSpace ds).isSome = true) :
    processEntry cur ds = some cur := by
  obtain ⟨name, hn⟩ := Option.isSome_iff_exists.mp hs
  simp [processEntry, doDirectory, h, hn, popDir]

/-- Witness for the amended claim C4 at a concrete directory entry. -/
theorem c4_directory_entry_restores_cursors_witness :
    processEntry ⟨["1DD_V1"], ["1DD_V1"]⟩ "drwxr-xr-x 2 u g 4096 Jan 1 ERA5"
      = some ⟨["1DD_V1"], ["1DD_V1"]⟩ :=
  c4_directory_entry_restores_cursors ⟨["1DD_V1"], ["1DD_V1"]⟩
    "drwxr-xr-x 2 u g 4096 Jan 1 ERA5" (by decide) (by decide)

/-- Claim C5: with comparison mode `mdate` and the file present locally,
`doFile` attempts an update download — and only that one attempt — iff the
local modification time is strictly earlier than the remote one; when it
is not earlier, and in particular when the two timestamps are equal,
nothing is downloaded and the filesystem and every summary list are
returned untouched. -/
theorem c5_mdate_update_iff_earlier (md5 : Content → Nat) (cwd : String)
    (fs : FS) (st : MirrorState) (filename : String)
    (mtimeOf : String → Datetime) (rmt : Datetime) (chunks : List Content)
    (fetch : Fetch) (c : Content) (h : fs.files filename = some c) :
    ((doFile md5 "mdate" cwd fs st filename mtimeOf rmt chunks fetch).attempts
        = [⟨filename, filename ++ ".1", true⟩]
      ↔ Datetime.ltb (mtimeOf filename) rmt = true)
    ∧ (Datetime.ltb (mtimeOf filename) rmt = false →
        doFile md5 "mdate" cwd fs st filename mtimeOf rmt chunks fetch
          = ⟨fs, st, [], 0⟩)
    ∧ (mtimeOf filename = rmt →
        doFile md5 "mdate" cwd fs st filename mtimeOf rmt chunks fetch
          = ⟨fs, st, [], 0⟩) := by
  cases hb : Datetime.ltb (mtimeOf filename) rmt with
  | false =>
      refine ⟨?_, fun _ => ?_, fun _ => ?_⟩ <;>
        simp [doFile, h, check_mdt, hb]
  | true =>
      refine ⟨?_, fun hf => absurd hf (by decide), fun he => ?_⟩
      · simp [doFile, h, check_mdt, hb, downloadTarget]
      · rw [he] at hb
        rw [datetime_ltb_irrefl] at hb
        exact absurd hb (by simp)

/-- Witness for claim C5: equal timestamps on `a.nc` trigger nothing. -/
theorem c5_mdate_update_iff_earlier_witness :
    ((doFile (fun c => c.length) "mdate" "/data" fsA st0 "a.nc"
        (fun _ => t2022) t2022 [] (.ok [9])).attempts
      = [⟨"a.nc", "a.nc.1", true⟩]
      ↔ Datetime.ltb t2022 t2022 = true)
    ∧ (Datetime.ltb t2022 t2022 = false →
        doFile (fun c => c.length) "mdate" "/data" fsA st0 "a.nc"
          (fun _ => t2022) t2022 [] (.ok [9]) = ⟨fsA, st0, [], 0⟩)
    ∧ (t2022 = t2022 →
        doFile (fun c => c.length) "mdate" "/data" fsA st0 "a.nc"
          (fun _ => t2022) t2022 [] (.ok [9]) = ⟨fsA, st0, [], 0⟩) :=
  c5_mdate_update_iff_earlier (fun c => c.length) "/data" fsA st0 "a.nc"
    (fun _ => t2022) t2022 [] (.ok [9]) [1, 2, 3] (by rfl)

/-- Claim C6: for a file present locally with comparison mode `""`,
`doFile` returns at once — no download attempt, no check transfer, and the
filesystem and every summary list unchanged. -/
theorem c6_no_check_skips_existing (md5 : Content → Nat) (cwd : String)
    (fs : FS) (st : MirrorState) (filename : String)
    (mtimeOf : String → Datetime) (rmt : Datetime) (chunks : List Content)
    (fetch : Fetch) (c : Content) (h : fs.files filename = some c) :
    doFile md5 "" cwd fs st filename mtimeOf rmt chunks fetch
      = ⟨fs, st, [], 0⟩ := by
  simp [doFile, h]

/-- Witness for claim C6 on the sample filesystem. -/
theorem c6_no_check_skips_existing_witness :
    doFile (fun c => c.length) "" "/data" fsA st0 "a.nc" (fun _ => t2022)
      t2022feb [] (.ok [9]) = ⟨fsA, st0, [], 0⟩ :=
  c6_no_check_skips_existing (fun c => c.length) "/data" fsA st0 "a.nc"
    (fun _ => t2022) t2022feb [] (.ok [9]) [1, 2, 3] (by rfl)

/-- Claim C7: for a file absent locally, `doFile` downloads it as new —
exactly one download attempt, whose write target is the final `filename`
itself (no temporary name) with `isUpdate = false` — whatever the
comparison mode; and, the reported result being success, it appends the
absolute path `cwd/filename` to `newFiles` and leaves `updatedFiles`
unchanged. -/
theorem c7_absent_file_downloaded_as_new (md5 : Content → Nat)
    (check cwd : String) (fs : FS) (st : MirrorState) (filename : String)
    (mtimeOf : String → Datetime) (rmt : Datetime) (chunks : List Content)
    (fetch : Fetch) (h : fs.files filename = none) :
    (doFile md5 check cwd fs st filename mtimeOf rmt chunks fetch).attempts
      = [⟨filename, filename, false⟩]
    ∧ (doFile md5 check cwd fs st filename mtimeOf rmt chunks fetch).st.newFiles
      = st.newFiles ++ [cwd ++ "/" ++ filename]
    ∧ (doFile md5 check cwd fs st filename mtimeOf rmt chunks
        fetch).st.updatedFiles = st.updatedFiles := by
  cases fetch <;> simp [doFile, h, downloadFile, downloadTarget]

/-- Witness for claim C7 on the empty filesystem. -/
theorem c7_absent_file_downloaded_as_new_witness :
    (doFile (fun c => c.length) "md5sum" "/data" fsEmpty st0 "b.nc"
      (fun _ => t2022) t2022 [[1]] (.ok [1])).attempts
      = [⟨"b.nc", "b.nc", false⟩]
    ∧ (doFile (fun c => c.length) "md5sum" "/data" fsEmpty st0 "b.nc"
      (fun _ => t2022) t2022 [[1]] (.ok [1])).st.newFiles
      = st0.newFiles ++ ["/data" ++ "/" ++ "b.nc"]
    ∧ (doFile (fun c => c.length) "md5sum" "/data" fsEmpty st0 "b.nc"
      (fun _ => t2022) t2022 [[1]] (.ok [1])).st.updatedFiles
      = st0.updatedFiles :=
  c7_absent_file_downloaded_as_new (fun c => c.length) "md5sum" "/data"
    fsEmpty st0 "b.nc" (fun _ => t2022) t2022 [[1]] (.ok [1]) (by rfl)

/-- Claim C8: with comparison mode `md5sum` and the file present locally,
`doFile` attempts an update download iff the digest of the local content
differs from the digest of the full remote content, and the decision alone
transfers the whole remote file: the bytes fetched by the check equal the
full remote content's length, update or not. -/
theorem c8_md5sum_update_iff_digest_differs (md5 : Content → Nat)
    (cwd : String) (fs : FS) (st : MirrorState) (filename : String)
    (mtimeOf : String → Datetime) (rmt : Datetime) (chunks : List Content)
    (fetch : Fetch) (c : Content) (h : fs.files filename = some c) :
    ((doFile md5 "md5sum" cwd fs st filename mtimeOf rmt chunks fetch).attempts
        = [⟨filename, filename ++ ".1", true⟩]
      ↔ md5 c ≠ md5 chunks.flatten)
    ∧ (doFile md5 "md5sum" cwd fs st filename mtimeOf rmt chunks
        fetch).checkFetched = chunks.flatten.length := by
  by_cases hd : md5 c = md5 chunks.flatten <;>
    constructor <;>
      simp [doFile, h, check_md5sum, foldl_append_eq_flatten, hd, downloadTarget]

/-- Witness for claim C8: local digest 3, remote digest 2 differ, so the
update attempt is made and the check transferred both remote bytes. -/
theorem c8_md5sum_update_iff_digest_differs_witness :
    ((doFile (fun c => c.length) "md5sum" "/data" fsA st0 "a.nc"
        (fun _ => t2022) t2022 [[4], [5]] (.ok [4, 5])).attempts
      = [⟨"a.nc", "a.nc.1", true⟩]
      ↔ ([1, 2, 3] : Content).length ≠ ([[4], [5]] : List Content).flatten.length)
    ∧ (doFile (fun c => c.length) "md5sum" "/data" fsA st0 "a.nc"
        (fun _ => t2022) t2022 [[4], [5]] (.ok [4, 5])).checkFetched
      = ([[4], [5]] : List Content).flatten.length :=
  c8_md5sum_update_iff_digest_differs (fun c => c.length) "/data" fsA st0
    "a.nc" (fun _ => t2022) t2022 [[4], [5]] (.ok [4, 5]) [1, 2, 3] (by rfl)

/-- Claim C9 is false on the code in token mode: on a credential file whose
line 1 is `ABC123`, the token branch returns the one-element tuple holding
the boolean flag `True` — the `utoken` string read from line 1 is
discarded — not the token string; with token mode off the pair (line 1,
line 2), each stripped of its newline, is returned as the claim says. -/
theorem c9_token_mode_returns_flag_not_token :
    get_credentials "ABC123\nsecret\n" true = some [PyVal.bool true]
    ∧ get_credentials "ABC123\nsecret\n" true ≠ some [PyVal.str "ABC123"]
    ∧ get_credentials "ABC123\nsecret\n" false
        = some [PyVal.str "ABC123", PyVal.str "secret"] := by
  decide

/-- Claim C10: in `FTPGetter.__init__`, a (truthy) username with no
password raises "Password needed to login as user" and no login with the
username is attempted; and a credentialed login happens only when both a
username and a password were given. -/
theorem c10_password_required_for_user_login :
    (∀ u : String, u ≠ "" →
      ftpLogin (some u) none = .raised "Password needed to login as user")
    ∧ (∀ (user pwd : Option String) (u p : String),
        ftpLogin user pwd = .withCreds u p → user = some u ∧ pwd = some p) := by
  constructor
  · intro u hu
    simp [ftpLogin, hu]
  · intro user pwd u p hw
    cases user with
    | none => simp [ftpLogin] at hw
    | some u0 =>
        cases pwd with
        | none =>
            by_cases h0 : u0 = "" <;> simp [ftpLogin, h0] at hw
        | some p0 =>
            by_cases h0 : u0 = ""
            · simp [ftpLogin, h0] at hw
            · simp [ftpLogin, h0] at hw
              obtain ⟨h1, h2⟩ := hw
              subst h1
              subst h2
              exact ⟨rfl, rfl⟩

/-- Witness for claim C10 at concrete credentials. -/
theorem c10_password_required_for_user_login_witness :
    ftpLogin (some "paola") none = .raised "Password needed to login as user"
    ∧ ((some "paola" : Option String) = some "paola"
        ∧ (some "pwd123" : Option String) = some "pwd123") :=
  ⟨c10_password_required_for_user_login.1 "paola" (by decide),
   c10_password_required_for_user_login.2 (some "paola") (some "pwd123")
     "paola" "pwd123" (by decide)⟩

end Frogs
